import Mathlib

/-!
A shallow embedding of `src/app/actions.ts` (the data-fetch-and-reconcile
pipeline of the GitHub follower checker), together with theorems settling
the specification claims about it.

The embedded revision is the one the claims reference: it defines
`fetchGitHubApi`, `fetchAllPages`, `getUserDetails` and `getNonFollowers`
(lines 302-463 of `actions.ts`).

Modelling decisions:
* The remote HTTP world is abstracted as a `Remote`: a pure response
  function from (token, path, page) to an optional `HttpResponse`.
  `none` models a transport failure (the `fetch` call throwing, caught by
  the `try/catch` in `fetchGitHubApi`).
* `fetchGitHubApi` in the source builds the URL, performs the fetch and
  classifies the response; the embedding keeps the classification logic
  (the 403 / `X-RateLimit-Remaining: "0"` rate-limit branch, the
  `!response.ok` branch with the `errorData.message ||` fallback, and the
  transport-failure catch) and abstracts the transport into the `Remote`.
* The `while (hasMore)` loop of `fetchAllPages` is embedded with a fuel
  parameter; exhausting the fuel returns `none`, modelling the run not
  terminating (no envelope is ever produced).
* TypeScript optional fields become `Option`; `undefined` is `none`.
  JavaScript `Set` membership over strings is modelled by list
  membership (`List.contains`), which has the same semantics.
* Every function additionally records the trace of API requests it
  issues, as (path, page) pairs, so that claims counting network calls
  can be stated.
-/

/-- A user object as returned by the list endpoints
(`/users/{u}/following`, `/users/{u}/followers`): the fields the code
reads. Mirrors the `GitHubUser` base fields of the source interface. -/
structure ListUser where
  login : String
  avatar_url : String
  html_url : String
deriving Repr, DecidableEq

/-- The JSON body of a `/users/{login}` profile response.  The remote
sends all of these fields; which ones the code copies is `getUserDetails`'s
business.  (`public_gists` is present on the wire even though the current
revision of the code does not read it.) -/
structure Profile where
  login : String
  avatar_url : String
  html_url : String
  followers : Nat
  following : Nat
  public_repos : Nat
  public_gists : Nat
deriving Repr, DecidableEq

/-- The `GitHubUser` interface of the embedded revision: base identity
fields plus optional detail counters.  The revision's interface carries
the comment `// Removed public_gists`; the field is kept here as an
`Option` that the code never populates, so that its absence is
expressible. -/
structure GitHubUser where
  login : String
  avatar_url : String
  html_url : String
  followers : Option Nat
  following : Option Nat
  public_repos : Option Nat
  public_gists : Option Nat
deriving Repr, DecidableEq

/-- An HTTP response as observed by `fetchGitHubApi`: status code, the
`X-RateLimit-Remaining` header (absent or a string), the parsed JSON body
when read as data, and the `message` field of the body when read as an
error payload (`errorData.message`; `none` models `undefined`). -/
structure HttpResponse (α : Type) where
  status : Nat
  rateLimitRemaining : Option String
  data : α
  message : Option String

/-- The result type of `fetchGitHubApi`: either the parsed data, or the
error object `{ error, isRateLimitError }` the source returns. -/
inductive ApiResult (α : Type) where
  | ok (data : α)
  | err (message : String) (isRateLimitError : Bool)
deriving Repr, DecidableEq

/-- The remote API world: a pure function from request to response.
`listResp token path page` answers the paged list requests that
`fetchAllPages` issues; `profileResp token login` answers the
`/users/{login}` requests that `getUserDetails` issues.  A `none`
response models the transport throwing. -/
structure Remote where
  listResp : Option String → String → Nat → Option (HttpResponse (List ListUser))
  profileResp : Option String → String → Option (HttpResponse Profile)

/-- The response classification performed by `fetchGitHubApi`
(actions.ts lines 323-359), applied to the response the transport
delivered (`none` = the `fetch` threw):
status 403 with `X-RateLimit-Remaining = "0"` is the rate-limit error;
any other non-2xx status is a plain error whose message is
`errorData.message || "GitHub API error: {status}"` (JavaScript `||`
treats the empty string like `undefined`); a 2xx response yields its
data; a transport failure yields the fixed connect-failure error. -/
def fetchGitHubApi {α : Type} (resp : Option (HttpResponse α)) : ApiResult α :=
  match resp with
  | none => ApiResult.err "Failed to connect to GitHub API." false
  | some r =>
    if r.status = 403 ∧ r.rateLimitRemaining = some "0" then
      ApiResult.err "GitHub API rate limit exceeded. Please provide a Personal Access Token." true
    else if 200 ≤ r.status ∧ r.status < 300 then
      ApiResult.ok r.data
    else
      ApiResult.err
        (match r.message with
         | some m => if m = "" then "GitHub API error: " ++ toString r.status else m
         | none => "GitHub API error: " ++ toString r.status)
        false

/-- The `while (hasMore)` loop body of `fetchAllPages`
(actions.ts lines 361-383), with explicit fuel.  State: current page,
`allData` accumulator, and the request trace.  An error response is
propagated as-is (discarding the accumulator); a page with fewer than
100 items (or an empty page) is the last one and is still appended. -/
def fetchAllPagesGo (remote : Remote) (token : Option String) (path : String) :
    Nat → Nat → List ListUser → List (String × Nat) →
    Option (ApiResult (List ListUser) × List (String × Nat))
  | 0, _, _, _ => none
  | fuel + 1, page, allData, trace =>
    match fetchGitHubApi (remote.listResp token path page) with
    | ApiResult.err m rl => some (ApiResult.err m rl, trace ++ [(path, page)])
    | ApiResult.ok data =>
      if data.length = 0 ∨ data.length < 100 then
        some (ApiResult.ok (allData ++ data), trace ++ [(path, page)])
      else
        fetchAllPagesGo remote token path fuel (page + 1) (allData ++ data)
          (trace ++ [(path, page)])

/-- `fetchAllPages` (actions.ts lines 361-383): sequential page requests
starting at page 1, empty accumulator.  Returns `none` iff the fuel runs
out, modelling the loop not terminating. -/
def fetchAllPages (remote : Remote) (token : Option String) (path : String) (fuel : Nat) :
    Option (ApiResult (List ListUser) × List (String × Nat)) :=
  fetchAllPagesGo remote token path fuel 1 [] []

/-- `getUserDetails` (actions.ts lines 385-399): one profile request; any
error (rate limit included) collapses to `null`; on success the record is
rebuilt from the response, copying `followers`, `following` and
`public_repos` — the revision removed `public_gists`, so that field is
never populated. -/
def getUserDetails (remote : Remote) (token : Option String) (username : String) :
    Option GitHubUser :=
  match fetchGitHubApi (remote.profileResp token username) with
  | ApiResult.err _ _ => none
  | ApiResult.ok userData =>
    some { login := userData.login
           avatar_url := userData.avatar_url
           html_url := userData.html_url
           followers := some userData.followers
           following := some userData.following
           public_repos := some userData.public_repos
           public_gists := none }

/-- The direction flag `checkType` of `getNonFollowers`. -/
inductive CheckType where
  | notFollowingBack
  | notFollowedBack
deriving Repr, DecidableEq

/-- The reconciliation step of `getNonFollowers`
(actions.ts lines 429-444): build the lower-cased login set of each
side, then filter the kept side in its original order by absence of its
lower-cased login from the other side's set, projecting to the original
(case-preserved) logins.  JavaScript `Set.has` over strings is string
equality, embedded as `List.contains`. -/
def nonFollowersLogins (followingData followersData : List ListUser)
    (checkType : CheckType) : List String :=
  let followingSet := followingData.map (fun user => user.login.toLower)
  let followersSet := followersData.map (fun user => user.login.toLower)
  match checkType with
  | CheckType.notFollowingBack =>
    (followingData.filter
      (fun user => !(followersSet.contains user.login.toLower))).map (fun user => user.login)
  | CheckType.notFollowedBack =>
    (followersData.filter
      (fun user => !(followingSet.contains user.login.toLower))).map (fun user => user.login)

/-- The enrichment loop of `getNonFollowers` (actions.ts lines 446-456):
for each reconciled login, fetch details; a successful fetch is pushed
onto `usersWithDetails`, a failed one only sets `hasPartialDataError`
(the record is not pushed). -/
def enrichUsers (remote : Remote) (token : Option String) :
    List String → List GitHubUser → Bool → List GitHubUser × Bool
  | [], usersWithDetails, hasPartialDataError => (usersWithDetails, hasPartialDataError)
  | login :: rest, usersWithDetails, hasPartialDataError =>
    match getUserDetails remote token login with
    | some details => enrichUsers remote token rest (usersWithDetails ++ [details]) hasPartialDataError
    | none => enrichUsers remote token rest usersWithDetails true

/-- The `GetNonFollowersResult` envelope of the embedded revision; every
field is optional in the interface. -/
structure GetNonFollowersResult where
  users : Option (List GitHubUser)
  error : Option String
  isRateLimitError : Option Bool
  hasPartialDataError : Option Bool
deriving Repr, DecidableEq

def profilePath (username : String) : String := "/users/" ++ username

def followingPath (username : String) : String := "/users/" ++ username ++ "/following"

def followersPath (username : String) : String := "/users/" ++ username ++ "/followers"

/-- `getNonFollowers` (actions.ts lines 401-463), paired with the trace
of API requests issued.  Empty username returns at once with no request.
The initial `getUserDetails` failure returns the "Could not find" error
with `isRateLimitError: false`.  Both relationship lists are fetched
before either is checked for an error; a list error object is returned
as the envelope (following checked first).  Otherwise reconcile, enrich,
and assemble the success envelope, whose `error` is set exactly when
`hasPartialDataError` is. `none` models the run not terminating (fuel). -/
def getNonFollowers (remote : Remote) (username : String) (token : Option String)
    (checkType : CheckType) (fuel : Nat) :
    Option (GetNonFollowersResult × List (String × Nat)) :=
  if username = "" then
    some ({ users := none, error := some "Username cannot be empty.",
            isRateLimitError := none, hasPartialDataError := none }, [])
  else
    match getUserDetails remote token username with
    | none =>
      some ({ users := none,
              error := some ("Could not find GitHub user: " ++ username ++ "."),
              isRateLimitError := some false, hasPartialDataError := none },
            [(profilePath username, 1)])
    | some _userDetails =>
      match fetchAllPages remote token (followingPath username) fuel with
      | none => none
      | some (followingRes, followingTrace) =>
        match fetchAllPages remote token (followersPath username) fuel with
        | none => none
        | some (followersRes, followersTrace) =>
          let trace := [(profilePath username, 1)] ++ followingTrace ++ followersTrace
          match followingRes with
          | ApiResult.err m rl =>
            some ({ users := none, error := some m, isRateLimitError := some rl,
                    hasPartialDataError := none }, trace)
          | ApiResult.ok followingData =>
            match followersRes with
            | ApiResult.err m rl =>
              some ({ users := none, error := some m, isRateLimitError := some rl,
                      hasPartialDataError := none }, trace)
            | ApiResult.ok followersData =>
              let logins := nonFollowersLogins followingData followersData checkType
              let enriched := enrichUsers remote token logins [] false
              some ({ users := some enriched.1,
                      error :=
                        if enriched.2 then
                          some "Some user details could not be fetched due to GitHub API rate limit."
                        else none,
                      isRateLimitError := none,
                      hasPartialDataError := some enriched.2 },
                    trace ++ logins.map (fun l => (profilePath l, 1)))

/-! ## Concrete remotes for counterexamples and witnesses -/

/-- A successful (200) list-endpoint response carrying `items`. -/
def okListResponse (items : List ListUser) : HttpResponse (List ListUser) :=
  { status := 200, rateLimitRemaining := some "4999", data := items, message := none }

/-- A successful (200) profile-endpoint response carrying `p`. -/
def okProfileResponse (p : Profile) : HttpResponse Profile :=
  { status := 200, rateLimitRemaining := some "4999", data := p, message := none }

/-- Placeholder body for error responses (the code never reads it). -/
def dummyProfile : Profile :=
  { login := "", avatar_url := "", html_url := "", followers := 0, following := 0,
    public_repos := 0, public_gists := 0 }

/-- A 404 profile response. -/
def notFoundProfileResponse : HttpResponse Profile :=
  { status := 404, rateLimitRemaining := some "4999", data := dummyProfile,
    message := some "Not Found" }

/-- The critical rate-limit signal on a list endpoint: HTTP 403 with a
zero-valued `X-RateLimit-Remaining` header. -/
def rateLimitedListResponse : HttpResponse (List ListUser) :=
  { status := 403, rateLimitRemaining := some "0", data := [],
    message := some "API rate limit exceeded" }

/-- The critical rate-limit signal on the profile endpoint. -/
def rateLimitedProfileResponse : HttpResponse Profile :=
  { status := 403, rateLimitRemaining := some "0", data := dummyProfile,
    message := some "API rate limit exceeded" }

def mkListUser (l : String) : ListUser := { login := l, avatar_url := "", html_url := "" }

def mkProfile (l : String) (n : Nat) : Profile :=
  { login := l, avatar_url := "", html_url := "", followers := n, following := n,
    public_repos := n, public_gists := n }

/-- A remote where every user exists with an empty following list and an
empty followers list. -/
def emptyRemote : Remote :=
  { listResp := fun _ _ _ => some (okListResponse [])
    profileResp := fun _ u => some (okProfileResponse (mkProfile u 3)) }

/-- The same remote as `emptyRemote`, written differently but pointwise
equal to it. -/
def emptyRemoteB : Remote :=
  { listResp := fun _ _ page => some (okListResponse (List.replicate 0 (mkListUser (toString page))))
    profileResp := fun _ u => some (okProfileResponse (mkProfile u (1 + 2))) }

/-- The five users "alice" follows in the partial-failure scenario. -/
def fiveUsers : List ListUser :=
  [mkListUser "b1", mkListUser "b2", mkListUser "b3", mkListUser "b4", mkListUser "b5"]

/-- A remote where "alice" follows five users, none follow back, and the
profile fetch fails (404) for exactly one of them ("b3"). -/
def partialFailureRemote : Remote :=
  { listResp := fun _ path page =>
      if path = followingPath "alice" ∧ page = 1 then some (okListResponse fiveUsers)
      else if path = followersPath "alice" ∧ page = 1 then some (okListResponse [])
      else none
    profileResp := fun _ u =>
      if u = "b3" then some notFoundProfileResponse
      else some (okProfileResponse (mkProfile u 2)) }

/-- A remote whose profile endpoint works but whose list endpoints are
rate-limited (quota exhausted after the first request). -/
def listsRateLimitedRemote : Remote :=
  { listResp := fun _ _ _ => some rateLimitedListResponse
    profileResp := fun _ u => some (okProfileResponse (mkProfile u 1)) }

/-- A remote whose quota is already exhausted: every endpoint returns the
rate-limit signal, the profile endpoint included. -/
def exhaustedRemote : Remote :=
  { listResp := fun _ _ _ => some rateLimitedListResponse
    profileResp := fun _ _ => some rateLimitedProfileResponse }

/-- A hard (non-rate-limit) failure on a list endpoint: HTTP 500 with
quota left. -/
def hardErrorListResponse : HttpResponse (List ListUser) :=
  { status := 500, rateLimitRemaining := some "4999", data := [],
    message := some "Server Error" }

/-- A remote whose profile endpoint works, whose following-list endpoint
hard-errors (500), and whose followers-list endpoint answers the
critical rate-limit signal (403 with a zero quota header). -/
def mixedFailureRemote : Remote :=
  { listResp := fun _ path _ =>
      if path = followingPath "alice" then some hardErrorListResponse
      else some rateLimitedListResponse
    profileResp := fun _ u => some (okProfileResponse (mkProfile u 1)) }

/-- One hundred distinct users: a full page. -/
def hundredUsers : List ListUser := (List.range 100).map (fun i => mkListUser (toString i))

/-- A remote whose list endpoints return a full page of 100 items at
page 1 and an empty page afterwards. -/
def pagedRemote : Remote :=
  { listResp := fun _ _ page =>
      if page = 1 then some (okListResponse hundredUsers) else some (okListResponse [])
    profileResp := fun _ u => some (okProfileResponse (mkProfile u 1)) }

/-! ## Supporting lemmas -/

/-- Negated `List.contains` over strings is decided non-membership. -/
theorem not_contains_eq_decide_not_mem (l : List String) (x : String) :
    (!(l.contains x)) = decide (x ∉ l) := by
  simp only [List.contains, List.elem_eq_mem, decide_not]

/-- The enrichment loop keeps exactly the logins whose detail fetch
succeeds (`filterMap`), in order after the accumulator, and its flag is
the old flag or-ed with "some fetch failed". -/
theorem enrichUsers_eq (remote : Remote) (token : Option String) (logins : List String)
    (acc : List GitHubUser) (flag : Bool) :
    enrichUsers remote token logins acc flag
      = (acc ++ logins.filterMap (getUserDetails remote token),
         flag || logins.any (fun l => (getUserDetails remote token l).isNone)) := by
  induction logins generalizing acc flag with
  | nil => simp [enrichUsers]
  | cons login rest ih =>
    simp only [enrichUsers]
    cases h : getUserDetails remote token login with
    | none => simp [ih, h, List.filterMap_cons, List.any_cons]
    | some d => simp [ih, h, List.filterMap_cons, List.any_cons]

/-- `fetchGitHubApi` reports a rate-limit-flagged error exactly for a
delivered response with status 403 and a zero-valued
`X-RateLimit-Remaining` header; the error message is then the fixed
rate-limit message. -/
theorem fetchGitHubApi_rateLimit_iff {α : Type} (resp : Option (HttpResponse α)) (m : String) :
    fetchGitHubApi resp = ApiResult.err m true ↔
      (∃ r, resp = some r ∧ r.status = 403 ∧ r.rateLimitRemaining = some "0") ∧
        m = "GitHub API rate limit exceeded. Please provide a Personal Access Token." := by
  constructor
  · intro h
    cases resp with
    | none => simp [fetchGitHubApi] at h
    | some r =>
      by_cases hrl : r.status = 403 ∧ r.rateLimitRemaining = some "0"
      · refine ⟨⟨r, rfl, hrl.1, hrl.2⟩, ?_⟩
        simp [fetchGitHubApi, hrl] at h
        exact h.symm
      · by_cases hok : 200 ≤ r.status ∧ r.status < 300
        · simp [fetchGitHubApi, hrl, hok] at h
        · simp [fetchGitHubApi, hrl, hok] at h
  · rintro ⟨⟨r, rfl, h403, hrem⟩, rfl⟩
    simp [fetchGitHubApi, h403, hrem]

/-! ## Claim theorems -/

/-- C1: reconciling in direction "A minus B" returns exactly the members
of the following list whose case-folded login is absent from the set of
case-folded logins of the followers list, preserving the following
list's original order (projected to their original logins, as the code
emits logins); and symmetrically for "B minus A". -/
theorem nonFollowersLogins_spec (a b : List ListUser) :
    nonFollowersLogins a b CheckType.notFollowingBack
      = (a.filter (fun u =>
          decide (u.login.toLower ∉ b.map (fun v => v.login.toLower)))).map
          (fun u => u.login)
    ∧ nonFollowersLogins a b CheckType.notFollowedBack
      = (b.filter (fun u =>
          decide (u.login.toLower ∉ a.map (fun v => v.login.toLower)))).map
          (fun u => u.login) := by
  constructor
  · unfold nonFollowersLogins
    simp only []
    congr 1
    apply List.filter_congr
    intro u _
    simp only [List.contains, List.elem_eq_mem, decide_not]
  · unfold nonFollowersLogins
    simp only []
    congr 1
    apply List.filter_congr
    intro u _
    simp only [List.contains, List.elem_eq_mem, decide_not]

/-- C5: for the empty username, `getNonFollowers` immediately returns the
user-input failure envelope ("Username cannot be empty.", no users) and
issues no API request at all (empty trace), for every remote, token,
direction and fuel. -/
theorem getNonFollowers_empty_username (remote : Remote) (token : Option String)
    (checkType : CheckType) (fuel : Nat) :
    getNonFollowers remote "" token checkType fuel =
      some ({ users := none, error := some "Username cannot be empty.",
              isRateLimitError := none, hasPartialDataError := none }, []) := rfl

/-- C9: the pipeline is deterministic — two runs with the same username,
token and direction against extensionally identical remote-response
functions produce identical results (envelope and request trace); the
reconciliation step is a pure Lean function of its inputs by
construction. -/
theorem getNonFollowers_deterministic (r₁ r₂ : Remote) (username : String)
    (token : Option String) (checkType : CheckType) (fuel : Nat)
    (hl : ∀ t p n, r₁.listResp t p n = r₂.listResp t p n)
    (hp : ∀ t u, r₁.profileResp t u = r₂.profileResp t u) :
    getNonFollowers r₁ username token checkType fuel
      = getNonFollowers r₂ username token checkType fuel := by
  have : r₁ = r₂ := by
    cases r₁
    cases r₂
    congr 1
    · funext t p n
      exact hl t p n
    · funext t u
      exact hp t u
  rw [this]

/-- C7: if the initial profile fetch for the target username fails for
any reason — any message `m` and any rate-limit flag `rl`, so the
critical rate-limit signal and transport failures included, not only a
404 — `getNonFollowers` returns the "Could not find GitHub user"
failure with `isRateLimitError = false`, after exactly the one profile
request; quota exhaustion on this first request is thus never surfaced
as `isRateLimitError = true`. -/
theorem getNonFollowers_profile_failure (remote : Remote) (username : String)
    (token : Option String) (checkType : CheckType) (fuel : Nat) (m : String) (rl : Bool)
    (hu : username ≠ "")
    (hp : fetchGitHubApi (remote.profileResp token username) = ApiResult.err m rl) :
    getNonFollowers remote username token checkType fuel =
      some ({ users := none,
              error := some ("Could not find GitHub user: " ++ username ++ "."),
              isRateLimitError := some false, hasPartialDataError := none },
            [(profilePath username, 1)]) := by
  have hd : getUserDetails remote token username = none := by
    simp [getUserDetails, hp]
  simp [getNonFollowers, hu, hd]

/-- C10: for a username whose profile fetch succeeds and whose following
and followers lists are both empty (one empty page each),
`getNonFollowers` returns the success envelope with an empty user list,
no error message, and `hasPartialDataError = false`. -/
theorem getNonFollowers_both_empty (remote : Remote) (username : String)
    (token : Option String) (checkType : CheckType) (fuel : Nat)
    (hu : username ≠ "")
    (hd : (getUserDetails remote token username).isSome = true)
    (hf : fetchGitHubApi (remote.listResp token (followingPath username) 1) = ApiResult.ok [])
    (hg : fetchGitHubApi (remote.listResp token (followersPath username) 1) = ApiResult.ok [])
    (hfuel : 1 ≤ fuel) :
    getNonFollowers remote username token checkType fuel =
      some ({ users := some [], error := none, isRateLimitError := none,
              hasPartialDataError := some false },
            [(profilePath username, 1), (followingPath username, 1),
             (followersPath username, 1)]) := by
  obtain ⟨d, hd⟩ := Option.isSome_iff_exists.mp hd
  obtain ⟨f, rfl⟩ : ∃ f, fuel = f + 1 := ⟨fuel - 1, by omega⟩
  have h1 : fetchAllPages remote token (followingPath username) (f + 1)
      = some (ApiResult.ok [], [(followingPath username, 1)]) := by
    simp [fetchAllPages, fetchAllPagesGo, hf]
  have h2 : fetchAllPages remote token (followersPath username) (f + 1)
      = some (ApiResult.ok [], [(followersPath username, 1)]) := by
    simp [fetchAllPages, fetchAllPagesGo, hg]
  cases checkType <;>
    simp [getNonFollowers, hu, hd, h1, h2, nonFollowersLogins, enrichUsers]

/-- C4: `fetchAllPages` starts at page 1 and accumulates the items of
every page, the terminating short page included; with page 1 returning
exactly 100 items (the page size, so the loop continues) and page 2
returning fewer than 100, it returns the concatenation of both pages
and issues exactly the two page requests (path,1) and (path,2).
Instantiated with an empty page 2, the accumulated list is the 100
page-1 items fetched in exactly 2 requests. -/
theorem fetchAllPages_two_pages (remote : Remote) (token : Option String) (path : String)
    (fuel : Nat) (items rest : List ListUser)
    (h1 : fetchGitHubApi (remote.listResp token path 1) = ApiResult.ok items)
    (h2 : items.length = 100)
    (h3 : fetchGitHubApi (remote.listResp token path 2) = ApiResult.ok rest)
    (h4 : rest.length < 100)
    (hfuel : 2 ≤ fuel) :
    fetchAllPages remote token path fuel
      = some (ApiResult.ok (items ++ rest), [(path, 1), (path, 2)]) := by
  obtain ⟨f, rfl⟩ : ∃ f, fuel = f + 2 := ⟨fuel - 2, by omega⟩
  have : f + 2 = (f + 1) + 1 := rfl
  simp [fetchAllPages, this, fetchAllPagesGo, h1, h2, h3, h4]

/-- C3 (amended): if the profile fetch succeeds and either the
following-list fetch returns the critical rate-limit error (the
classification `fetchAllPages` propagates exactly for an HTTP 403
response with a zero-valued `X-RateLimit-Remaining` header, see
`fetchGitHubApi_rateLimit_iff`), or the following-list fetch succeeds
and the followers-list fetch returns that error, then `getNonFollowers`
returns a failure envelope with `isRateLimitError = true` and no
`users` field.  The restriction in the second disjunct is forced: the
code checks the following-list error first, so a followers-list
rate-limit behind a following-list hard error is surfaced as that hard
error with `isRateLimitError = false`
(see `getNonFollowers_rateLimit_masked_cex`). -/
theorem getNonFollowers_critical_rateLimit (remote : Remote) (username : String)
    (token : Option String) (checkType : CheckType) (fuel : Nat) (m : String)
    (r₁ r₂ : ApiResult (List ListUser) × List (String × Nat))
    (hu : username ≠ "")
    (hd : (getUserDetails remote token username).isSome = true)
    (hf : fetchAllPages remote token (followingPath username) fuel = some r₁)
    (hg : fetchAllPages remote token (followersPath username) fuel = some r₂)
    (hrl : r₁.1 = ApiResult.err m true
      ∨ ((∃ l, r₁.1 = ApiResult.ok l) ∧ r₂.1 = ApiResult.err m true)) :
    ∃ tr, getNonFollowers remote username token checkType fuel =
      some ({ users := none, error := some m, isRateLimitError := some true,
              hasPartialDataError := none }, tr) := by
  obtain ⟨d, hd⟩ := Option.isSome_iff_exists.mp hd
  obtain ⟨res₁, tr₁⟩ := r₁
  obtain ⟨res₂, tr₂⟩ := r₂
  rcases hrl with h | ⟨⟨l, hok⟩, herr⟩
  · simp only at h
    subst h
    exact ⟨[(profilePath username, 1)] ++ tr₁ ++ tr₂, by
      simp [getNonFollowers, hu, hd, hf, hg]⟩
  · simp only at hok herr
    subst hok herr
    exact ⟨[(profilePath username, 1)] ++ tr₁ ++ tr₂, by
      simp [getNonFollowers, hu, hd, hf, hg]⟩

/-- C2 (amended): on the success path, an identity whose per-user
enrichment fetch fails is omitted from the envelope entirely — `users`
is exactly the reconciled logins whose detail fetch succeeded
(`filterMap`), in reconciled order — while `hasPartialDataError` is set
exactly when at least one enrichment fetch failed, and processing
continues through every remaining identity (each reconciled login is
requested: see the trace).  In particular 1 failure out of 5 reconciled
identities yields `users.length = 4`, not 5. -/
theorem getNonFollowers_enrichment_failures (remote : Remote) (username : String)
    (token : Option String) (checkType : CheckType) (fuel : Nat)
    (followingData followersData : List ListUser) (tr₁ tr₂ : List (String × Nat))
    (hu : username ≠ "")
    (hd : (getUserDetails remote token username).isSome = true)
    (hf : fetchAllPages remote token (followingPath username) fuel
      = some (ApiResult.ok followingData, tr₁))
    (hg : fetchAllPages remote token (followersPath username) fuel
      = some (ApiResult.ok followersData, tr₂)) :
    getNonFollowers remote username token checkType fuel =
      some ({ users := some ((nonFollowersLogins followingData followersData checkType).filterMap
                (getUserDetails remote token)),
              error :=
                if (nonFollowersLogins followingData followersData checkType).any
                    (fun l => (getUserDetails remote token l).isNone) then
                  some "Some user details could not be fetched due to GitHub API rate limit."
                else none,
              isRateLimitError := none,
              hasPartialDataError :=
                some ((nonFollowersLogins followingData followersData checkType).any
                  (fun l => (getUserDetails remote token l).isNone)) },
            [(profilePath username, 1)] ++ tr₁ ++ tr₂
              ++ (nonFollowersLogins followingData followersData checkType).map
                  (fun l => (profilePath l, 1))) := by
  obtain ⟨d, hd⟩ := Option.isSome_iff_exists.mp hd
  simp [getNonFollowers, hu, hd, hf, hg, enrichUsers_eq]

/-- C6: every envelope `getNonFollowers` returns satisfies the
terminal-state invariant — either `users` is present (and then the
error message is present exactly when `hasPartialDataError` is true),
or the request failed wholesale: `users` absent and `errorMessage`
set. -/
theorem getNonFollowers_terminal_invariant (remote : Remote) (username : String)
    (token : Option String) (checkType : CheckType) (fuel : Nat)
    (env : GetNonFollowersResult) (tr : List (String × Nat))
    (h : getNonFollowers remote username token checkType fuel = some (env, tr)) :
    (∃ us, env.users = some us ∧ (env.error.isSome ↔ env.hasPartialDataError = some true))
    ∨ (env.users = none ∧ env.error.isSome) := by
  rw [getNonFollowers] at h
  split at h
  · rw [Option.some_inj, Prod.mk.injEq] at h
    obtain ⟨h1, _⟩ := h
    subst h1
    right
    exact ⟨rfl, rfl⟩
  · split at h
    · rw [Option.some_inj, Prod.mk.injEq] at h
      obtain ⟨h1, _⟩ := h
      subst h1
      right
      exact ⟨rfl, rfl⟩
    · split at h
      · exact absurd h (by simp)
      · split at h
        · exact absurd h (by simp)
        · split at h
          · rw [Option.some_inj, Prod.mk.injEq] at h
            obtain ⟨h1, _⟩ := h
            subst h1
            right
            exact ⟨rfl, rfl⟩
          · split at h
            · rw [Option.some_inj, Prod.mk.injEq] at h
              obtain ⟨h1, _⟩ := h
              subst h1
              right
              exact ⟨rfl, rfl⟩
            · rw [Option.some_inj, Prod.mk.injEq] at h
              obtain ⟨h1, _⟩ := h
              subst h1
              left
              refine ⟨_, rfl, ?_⟩
              split
              · rename_i hflag
                simp [hflag]
              · rename_i hflag
                simp [Bool.not_eq_true] at hflag
                simp [hflag]

/-! ## Counterexamples and witnesses -/

/-- C2 counterexample: "alice" has 5 reconciled identities and exactly
one of them ("b3") fails enrichment; the envelope then holds 4 records —
not 5 — none of them for "b3" (no base-fields-only record is emitted),
with `hasPartialDataError = true`. -/
theorem getNonFollowers_enrichment_cex :
    (getNonFollowers partialFailureRemote "alice" none CheckType.notFollowingBack 1).map
        (fun r => (r.1.users.map List.length,
                   r.1.users.map (fun us => us.any (fun u => u.login == "b3")),
                   r.1.hasPartialDataError))
      = some (some 4, some false, some true) := rfl

/-- C2 witness: the amended theorem applied to the 5-users/1-failure
remote. -/
theorem getNonFollowers_enrichment_failures_witness :
    ("alice" : String) ≠ ""
    ∧ (getUserDetails partialFailureRemote none "alice").isSome = true
    ∧ fetchAllPages partialFailureRemote none (followingPath "alice") 1
        = some (ApiResult.ok fiveUsers, [(followingPath "alice", 1)])
    ∧ fetchAllPages partialFailureRemote none (followersPath "alice") 1
        = some (ApiResult.ok [], [(followersPath "alice", 1)])
    ∧ getNonFollowers partialFailureRemote "alice" none CheckType.notFollowingBack 1
        = some ({ users := some ((nonFollowersLogins fiveUsers [] CheckType.notFollowingBack).filterMap
                    (getUserDetails partialFailureRemote none)),
                  error :=
                    if (nonFollowersLogins fiveUsers [] CheckType.notFollowingBack).any
                        (fun l => (getUserDetails partialFailureRemote none l).isNone) then
                      some "Some user details could not be fetched due to GitHub API rate limit."
                    else none,
                  isRateLimitError := none,
                  hasPartialDataError :=
                    some ((nonFollowersLogins fiveUsers [] CheckType.notFollowingBack).any
                      (fun l => (getUserDetails partialFailureRemote none l).isNone)) },
                [(profilePath "alice", 1)] ++ [(followingPath "alice", 1)]
                  ++ [(followersPath "alice", 1)]
                  ++ (nonFollowersLogins fiveUsers [] CheckType.notFollowingBack).map
                      (fun l => (profilePath l, 1))) :=
  ⟨by decide, rfl, rfl, rfl,
    getNonFollowers_enrichment_failures partialFailureRemote "alice" none
      CheckType.notFollowingBack 1 fiveUsers [] [(followingPath "alice", 1)]
      [(followersPath "alice", 1)] (by decide) rfl rfl rfl⟩

/-- C3 counterexample: the followers-list fetch returns the critical
rate-limit signal (403 with a zero-valued quota header) while the
following-list fetch hard-errors, and the envelope then carries the
following-list error with `isRateLimitError = false` — not `true` as
the original claim states for every request in which either list fetch
is rate-limited. -/
theorem getNonFollowers_rateLimit_masked_cex :
    (mixedFailureRemote.listResp none (followersPath "alice") 1).map
        (fun r => (r.status, r.rateLimitRemaining)) = some (403, some "0")
    ∧ (getNonFollowers mixedFailureRemote "alice" none CheckType.notFollowingBack 1).map
        (fun r => (r.1.users, r.1.isRateLimitError, r.1.error))
      = some (none, some false, some "Server Error") :=
  ⟨rfl, rfl⟩

/-- C3 witness: the critical rate-limit theorem applied to a remote
whose list endpoints answer 403 with a zero quota header. -/
theorem getNonFollowers_critical_rateLimit_witness :
    ("alice" : String) ≠ ""
    ∧ (getUserDetails listsRateLimitedRemote none "alice").isSome = true
    ∧ fetchAllPages listsRateLimitedRemote none (followingPath "alice") 1
        = some (ApiResult.err
            "GitHub API rate limit exceeded. Please provide a Personal Access Token." true,
            [(followingPath "alice", 1)])
    ∧ fetchAllPages listsRateLimitedRemote none (followersPath "alice") 1
        = some (ApiResult.err
            "GitHub API rate limit exceeded. Please provide a Personal Access Token." true,
            [(followersPath "alice", 1)])
    ∧ ∃ tr, getNonFollowers listsRateLimitedRemote "alice" none CheckType.notFollowingBack 1 =
        some ({ users := none,
                error := some "GitHub API rate limit exceeded. Please provide a Personal Access Token.",
                isRateLimitError := some true, hasPartialDataError := none }, tr) :=
  ⟨by decide, rfl, rfl, rfl,
    getNonFollowers_critical_rateLimit listsRateLimitedRemote "alice" none
      CheckType.notFollowingBack 1
      "GitHub API rate limit exceeded. Please provide a Personal Access Token."
      (ApiResult.err "GitHub API rate limit exceeded. Please provide a Personal Access Token." true,
        [(followingPath "alice", 1)])
      (ApiResult.err "GitHub API rate limit exceeded. Please provide a Personal Access Token." true,
        [(followersPath "alice", 1)])
      (by decide) rfl rfl rfl (Or.inl rfl)⟩

/-- C4 witness: the pagination theorem applied to a remote returning a
full page of 100 items and then an empty page. -/
theorem fetchAllPages_two_pages_witness :
    fetchGitHubApi (pagedRemote.listResp none (followingPath "alice") 1)
        = ApiResult.ok hundredUsers
    ∧ hundredUsers.length = 100
    ∧ fetchGitHubApi (pagedRemote.listResp none (followingPath "alice") 2)
        = ApiResult.ok []
    ∧ ([] : List ListUser).length < 100
    ∧ 2 ≤ 2
    ∧ fetchAllPages pagedRemote none (followingPath "alice") 2
        = some (ApiResult.ok (hundredUsers ++ []),
                [(followingPath "alice", 1), (followingPath "alice", 2)]) :=
  ⟨rfl, rfl, rfl, by decide, by decide,
    fetchAllPages_two_pages pagedRemote none (followingPath "alice") 2 hundredUsers []
      rfl rfl rfl (by decide) (by decide)⟩

/-- C6 witness: the terminal-state invariant applied to a concrete
successful run. -/
theorem getNonFollowers_terminal_invariant_witness :
    getNonFollowers emptyRemote "alice" none CheckType.notFollowingBack 1
      = some ({ users := some [], error := none, isRateLimitError := none,
                hasPartialDataError := some false },
              [(profilePath "alice", 1), (followingPath "alice", 1), (followersPath "alice", 1)])
    ∧ ((∃ us, (some ([] : List GitHubUser)) = some us
          ∧ ((none : Option String).isSome ↔ (some false : Option Bool) = some true))
        ∨ ((some ([] : List GitHubUser)) = none ∧ (none : Option String).isSome)) :=
  ⟨rfl,
    getNonFollowers_terminal_invariant emptyRemote "alice" none CheckType.notFollowingBack 1
      { users := some [], error := none, isRateLimitError := none,
        hasPartialDataError := some false }
      [(profilePath "alice", 1), (followingPath "alice", 1), (followersPath "alice", 1)] rfl⟩

/-- C7 witness: the profile-failure theorem applied to a remote whose
quota is exhausted (the profile request itself gets the 403/zero-quota
signal), showing the envelope still reports `isRateLimitError = false`. -/
theorem getNonFollowers_profile_failure_witness :
    ("alice" : String) ≠ ""
    ∧ fetchGitHubApi (exhaustedRemote.profileResp none "alice")
        = ApiResult.err "GitHub API rate limit exceeded. Please provide a Personal Access Token." true
    ∧ getNonFollowers exhaustedRemote "alice" none CheckType.notFollowingBack 1
        = some ({ users := none, error := some "Could not find GitHub user: alice.",
                  isRateLimitError := some false, hasPartialDataError := none },
                [(profilePath "alice", 1)]) :=
  ⟨by decide, rfl,
    getNonFollowers_profile_failure exhaustedRemote "alice" none CheckType.notFollowingBack 1
      "GitHub API rate limit exceeded. Please provide a Personal Access Token." true
      (by decide) rfl⟩

/-- C9 witness: determinism applied to two pointwise-equal remotes. -/
theorem getNonFollowers_deterministic_witness :
    emptyRemote.listResp none (followingPath "alice") 1
        = emptyRemoteB.listResp none (followingPath "alice") 1
    ∧ emptyRemote.profileResp none "alice" = emptyRemoteB.profileResp none "alice"
    ∧ getNonFollowers emptyRemote "alice" none CheckType.notFollowingBack 1
        = getNonFollowers emptyRemoteB "alice" none CheckType.notFollowingBack 1 :=
  ⟨rfl, rfl,
    getNonFollowers_deterministic emptyRemote emptyRemoteB "alice" none
      CheckType.notFollowingBack 1 (fun _ _ _ => rfl) (fun _ _ => rfl)⟩

/-- C10 witness: the empty-lists theorem applied to a remote where "bob"
has no followers and follows nobody. -/
theorem getNonFollowers_both_empty_witness :
    ("bob" : String) ≠ ""
    ∧ (getUserDetails emptyRemote none "bob").isSome = true
    ∧ fetchGitHubApi (emptyRemote.listResp none (followingPath "bob") 1) = ApiResult.ok []
    ∧ fetchGitHubApi (emptyRemote.listResp none (followersPath "bob") 1) = ApiResult.ok []
    ∧ 1 ≤ 1
    ∧ getNonFollowers emptyRemote "bob" none CheckType.notFollowingBack 1
        = some ({ users := some [], error := none, isRateLimitError := none,
                  hasPartialDataError := some false },
                [(profilePath "bob", 1), (followingPath "bob", 1), (followersPath "bob", 1)]) :=
  ⟨by decide, rfl, rfl, rfl, by decide,
    getNonFollowers_both_empty emptyRemote "bob" none CheckType.notFollowingBack 1
      (by decide) rfl rfl rfl (by decide)⟩

/-- C8 counterexample: the remote profile response for "alice" carries
`public_gists = 3` on the wire, and the enrichment fetch succeeds (the
record exists and e.g. its follower count is populated), yet the
resulting record's `public_gists` is absent — the embedded revision
removed that field — so the record does not carry all four detail
fields. -/
theorem getUserDetails_public_gists_cex :
    (emptyRemote.profileResp none "alice").map (fun r => r.data.public_gists) = some 3
    ∧ (getUserDetails emptyRemote none "alice").map GitHubUser.followers = some (some 3)
    ∧ (getUserDetails emptyRemote none "alice").map GitHubUser.public_gists = some none :=
  ⟨rfl, rfl, rfl⟩

/-- C8 (amended): for every identity whose enrichment fetch succeeds,
the resulting record carries the three detail fields of the embedded
revision — followerCount, followingCount and publicRepoCount — populated
from the per-user profile response; publicGistCount was removed from the
interface and is never populated. -/
theorem getUserDetails_success_fields (remote : Remote) (token : Option String)
    (username : String) (p : Profile)
    (hp : fetchGitHubApi (remote.profileResp token username) = ApiResult.ok p) :
    getUserDetails remote token username
      = some { login := p.login, avatar_url := p.avatar_url, html_url := p.html_url,
               followers := some p.followers, following := some p.following,
               public_repos := some p.public_repos, public_gists := none } := by
  simp [getUserDetails, hp]

/-- C8 witness: the amended theorem applied to "alice" on a concrete
remote. -/
theorem getUserDetails_success_fields_witness :
    fetchGitHubApi (emptyRemote.profileResp none "alice") = ApiResult.ok (mkProfile "alice" 3)
    ∧ getUserDetails emptyRemote none "alice"
      = some { login := "alice", avatar_url := "", html_url := "",
               followers := some 3, following := some 3,
               public_repos := some 3, public_gists := none } :=
  ⟨rfl,
    getUserDetails_success_fields emptyRemote none "alice" (mkProfile "alice" 3) rfl⟩
